import Mathlib

/-!
Verification of the platform-provisioning and build-orchestration pipeline
in `tools/cli_command/cli_build.py`.

The Python functions are shallowly embedded as pure Lean functions. Calls to
external collaborators (filesystem, git, subprocesses, standard input, the
parsed project configuration) are resolved through an explicit environment
`Env` of oracles, and every externally visible action is recorded in an event
trace (`List Ev`), so that properties about which external operations run,
and in which order, can be stated and proved.
-/

/-- Externally visible events emitted by the pipeline, one constructor per
kind of side effect in `cli_build.py`. -/
inductive Ev : Type where
  | mirrorSet (unset : Bool)                  -- set_repo_mirro(unset=...)
  | clone (repo dest : String)                -- git_clone(repo, dest)
  | checkout (path commit : String)           -- git_checkout(path, commit)
  | getCommit (path : String)                 -- git_get_commit(path)
  | readInput                                 -- input("input: ")
  | writeFlag (path : String)                 -- open(dont_update_platform,'w')
  | subproc (cmd : String)                    -- do_subprocess(cmd)
  | updateSubmodules                          -- update_submodules()
  | envWrite (key : String)                   -- env_write(key, ...)
  | checkProjDir                              -- check_proj_dir()
  | initUsingConfig                           -- init_using_config(force=False)
  | mkdirs (path : String)                    -- os.makedirs(path, exist_ok=True)
  | rmrf (path : String)                      -- rm_rf(path)
  | copytree (src dst : String)               -- shutil.copytree(src, dst)
  | logError (msg : String)
  | logWarn (msg : String)
  | logInfo (msg : String)
  | logNote (msg : String)
  | logDebug (msg : String)
deriving DecidableEq, Repr

/-- A platform descriptor from the registry document (`platforms.yaml`):
name, repository URL and pinned commit. -/
structure PlatformInfo : Type where
  name : String
  repo : String
  commit : String
deriving DecidableEq, Repr

/-- The global parameters consulted by the pipeline (`get_global_params`),
restricted to the keys `cli_build.py` actually reads. The registry document
is carried as its parsed list of platform descriptors. -/
structure Params : Type where
  platforms : List PlatformInfo        -- parse_yaml(platforms_yaml)["platforms"]
  platforms_root : String
  dont_update_platform : String
  open_root : String
  app_root : String
  app_build_path : String
  app_bin_path : String
  dist_root : String
deriving Repr

/-- Contents of a directory tree, abstracted as file name to file bytes. -/
def FsTree : Type := String → Option String

/-- Oracles for every external call the pipeline makes. Each oracle fixes
the answer the outside world would give; the pipeline itself is pure. -/
structure Env : Type where
  pathExists : String → Bool           -- os.path.exists
  isFile : String → Bool               -- os.path.isfile
  gitCommit : String → String          -- git_get_commit
  cloneOk : String → String → Bool     -- result of git_clone(repo, dest)
  checkoutOk : String → String → Bool  -- result of git_checkout(path, commit)
  userInput : String                   -- input("input: ")
  countryCode : String                 -- get_country_code()
  subprocRet : String → Int            -- do_subprocess(cmd)
  usingData : String → String          -- parse_config_file(using_config).get(k, "")
  envCacheUpdated : Bool               -- env_read("update_submodules", False)
  updateSubmodulesOk : Bool            -- result of update_submodules()
  dirContent : String → FsTree         -- contents of a directory on disk

/-- `os.path.join` restricted to relative second components. -/
def pjoin (a b : String) : String := a ++ "/" ++ b

/-- `env_check`: returns the cached flag if the submodule update already ran,
otherwise runs `update_submodules` and caches its result. -/
def env_check (env : Env) : Bool × List Ev :=
  if env.envCacheUpdated then (true, [])
  else (env.updateSubmodulesOk, [Ev.updateSubmodules, Ev.envWrite "update_submodules"])

/-- `get_platform_info`: exact name lookup in the registry list; `none`
models the `{}` returned (with a logged error) when no entry matches. -/
def get_platform_info (p : Params) (platform : String) : Option PlatformInfo :=
  p.platforms.find? (fun q => q.name = platform)

/-- Log events emitted by `get_platform_info`. -/
def get_platform_info_evs (p : Params) (platform : String) : List Ev :=
  match get_platform_info p platform with
  | some _ => []
  | none => [Ev.logError ("Not found platform [" ++ platform ++ "] in yaml.")]

/-- `check_platform_commit(repo_path, commit)`: verify the working tree is at
the pinned commit, with interactive drift resolution. Returns the boolean
result and the trace of external actions. -/
def check_platform_commit (env : Env) (p : Params) (repo_path commit : String) :
    Bool × List Ev :=
  if ¬ env.pathExists repo_path then
    (false, [Ev.logError ("Not found " ++ repo_path)])
  else if commit = "" then
    -- Maybe a newly created platform
    (true, [])
  else
    let need_prompt := ¬ env.pathExists p.dont_update_platform
    let real_commit := env.gitCommit repo_path
    if need_prompt ∧ real_commit ≠ commit then
      let promptEvs : List Ev :=
        [Ev.getCommit repo_path,
         Ev.logWarn ("The commit required by the platform is " ++ commit ++ ","),
         Ev.logWarn ("but currently " ++ real_commit ++ " is being used."),
         Ev.logInfo "Update the platform to the required commit?",
         Ev.logNote "y(es) / n(o) / d(on\x27t prompt again)",
         Ev.readInput]
      let ans := env.userInput.toUpper
      if ans = "Y" then
        if ¬ env.checkoutOk repo_path commit then
          (false, promptEvs ++
            [Ev.checkout repo_path commit,
             Ev.logError "Update platform error. Please try again."])
        else
          (true, promptEvs ++
            [Ev.checkout repo_path commit,
             Ev.logNote "Platform updated successfully."])
      else if ans = "N" then
        (true, promptEvs ++
          [Ev.logInfo "Use command [tos.py update] to update the platform."])
      else if ans = "D" then
        (true, promptEvs ++ [Ev.writeFlag p.dont_update_platform])
      else
        (true, promptEvs)
    else
      (true, [Ev.getCommit repo_path])

/-- `download_platform(platform)`: clone the repository and switch to the
pinned commit when the platform path does not exist; otherwise verify the
commit of the existing tree. The mirror override is enabled only for the
"China" region and is released in a `finally` block. -/
def download_platform (env : Env) (p : Params) (platform : String) :
    Bool × List Ev :=
  let platform_root := pjoin p.platforms_root platform
  let infoEvs := get_platform_info_evs p platform
  let repo := ((get_platform_info p platform).map (·.repo)).getD ""
  let commit := ((get_platform_info p platform).map (·.commit)).getD ""
  if env.pathExists platform_root then
    let existsEvs := infoEvs ++
      [Ev.logInfo ("Platform [" ++ platform ++ "] is exists.")]
    ((check_platform_commit env p platform_root commit).1,
     existsEvs ++ (check_platform_commit env p platform_root commit).2)
  else
    let mirror := env.countryCode = "China"
    let pre := infoEvs ++
      [Ev.logInfo ("Downloading platform [" ++ platform ++ "] ...")] ++
      (if mirror then [Ev.mirrorSet false] else [])
    let post := if mirror then [Ev.mirrorSet true] else []
    if ¬ env.cloneOk repo platform_root then
      (false, pre ++ [Ev.clone repo platform_root] ++ post)
    else if ¬ env.checkoutOk platform_root commit then
      (false, pre ++ [Ev.clone repo platform_root,
                      Ev.checkout platform_root commit] ++ post)
    else
      (true, pre ++ [Ev.clone repo platform_root,
                     Ev.checkout platform_root commit] ++ post)

/-- `prepare_platform(platform, chip)`: run the optional platform
preparation hook; absence of both hook scripts is not an error. -/
def prepare_platform (env : Env) (p : Params) (platform chip : String) :
    Bool × List Ev :=
  let platform_root := pjoin p.platforms_root platform
  let prepare_py := pjoin platform_root "platform_prepare.py"
  let prepare_sh := pjoin platform_root "platform_prepare.sh"
  if ¬ env.pathExists prepare_py ∧ ¬ env.pathExists prepare_sh then
    (true, [Ev.logDebug "no need platform prepare."])
  else
    let parpare_cmd :=
      if env.pathExists prepare_py then "python platform_prepare.py"
      else "./platform_prepare.sh"
    let cmd := "cd " ++ platform_root ++ " && " ++ parpare_cmd ++ " " ++ chip
    let evs := [Ev.logInfo ("Preparing platform [" ++ platform ++ "] ..."),
                Ev.subproc cmd]
    if env.subprocRet cmd ≠ 0 then (false, evs) else (true, evs)

/-- `build_setup(platform, project_name, framework, chip)`: run the optional
build-setup hook with the four positional arguments. -/
def build_setup (env : Env) (p : Params)
    (platform project_name framework chip : String) : Bool × List Ev :=
  let platform_root := pjoin p.platforms_root platform
  let setup_py := pjoin platform_root "build_setup.py"
  let setup_sh := pjoin platform_root "build_setup.sh"
  if ¬ env.pathExists setup_py ∧ ¬ env.pathExists setup_sh then
    (true, [Ev.logDebug "no need build setup."])
  else
    let setup_cmd :=
      if env.pathExists setup_py then "python build_setup.py"
      else "./build_setup.sh"
    let cmd := "cd " ++ platform_root ++ " && " ++ setup_cmd ++ " " ++
      project_name ++ " " ++ platform ++ " " ++ framework ++ " " ++ chip
    let evs := [Ev.logInfo "Build setup ...", Ev.subproc cmd]
    if env.subprocRet cmd ≠ 0 then (false, evs) else (true, evs)

/-- The cmake command line assembled by `cmake_configure`. -/
def cmake_cmd_of (env : Env) (p : Params) (verbose : Bool) : String :=
  let base := "cmake -G Ninja " ++ p.open_root ++ " " ++
    (if verbose then "-DCMAKE_VERBOSE_MAKEFILE=ON " else "")
  let defines :=
    "-DTOS_PROJECT_NAME=" ++ env.usingData "CONFIG_PROJECT_NAME" ++ " " ++
    "-DTOS_PROJECT_ROOT=" ++ p.app_root ++ " " ++
    "-DTOS_PROJECT_PLATFORM=" ++ env.usingData "CONFIG_PLATFORM_CHOICE" ++ " " ++
    "-DTOS_FRAMEWORK=" ++ env.usingData "CONFIG_FRAMEWORK_CHOICE" ++ " " ++
    "-DTOS_PROJECT_CHIP=" ++ env.usingData "CONFIG_CHIP_CHOICE" ++ " " ++
    "-DTOS_PROJECT_BOARD=" ++ env.usingData "CONFIG_BOARD_CHOICE"
  "cd " ++ p.app_build_path ++ " && " ++ base ++ defines

/-- `cmake_configure(using_data, verbose)`: invoke the build-graph generator
in the build directory; non-zero exit is failure. -/
def cmake_configure (env : Env) (p : Params) (verbose : Bool) :
    Bool × List Ev :=
  let cmd := cmake_cmd_of env p verbose
  if env.subprocRet cmd ≠ 0 then (false, [Ev.subproc cmd])
  else (true, [Ev.subproc cmd])

/-- `ninja_build(build_path, verbose)`: fail without running anything when
`build.ninja` is absent; otherwise run the build executor. -/
def ninja_build (env : Env) (build_path : String) (verbose : Bool) :
    Bool × List Ev :=
  let build_file := pjoin build_path "build.ninja"
  if ¬ env.isFile build_file then (false, [])
  else
    let cmd := "ninja example " ++ (if verbose then "--verbose " else "")
    let ninja_cmd := "cd " ++ build_path ++ " && " ++ cmd
    if env.subprocRet ninja_cmd ≠ 0 then (false, [Ev.subproc ninja_cmd])
    else (true, [Ev.subproc ninja_cmd])

/-- The expected artifact path checked by `check_bin_file`. -/
def expected_bin_file (env : Env) (p : Params) : String :=
  let app_name := env.usingData "CONFIG_PROJECT_NAME"
  let app_ver := env.usingData "CONFIG_PROJECT_VERSION"
  pjoin p.app_bin_path (app_name ++ "_QIO_" ++ app_ver ++ ".bin")

/-- The distribution package path `{dist_root}/{appName}_{appVersion}`. -/
def dist_path_of (env : Env) (p : Params) : String :=
  pjoin p.dist_root
    (env.usingData "CONFIG_PROJECT_NAME" ++ "_" ++
     env.usingData "CONFIG_PROJECT_VERSION")

/-- `check_bin_file(using_data)`: check the expected binary exists, then
replace the distribution package with a fresh copy of the binary-output
directory and print the success banner. -/
def check_bin_file (env : Env) (p : Params) : Bool × List Ev :=
  let app_bin_file := expected_bin_file env p
  if ¬ env.pathExists app_bin_file then
    (false, [Ev.logError ("Not found " ++ app_bin_file)])
  else
    let dist_path := dist_path_of env p
    let bin_name := env.usingData "CONFIG_PROJECT_NAME" ++ "_QIO_" ++
      env.usingData "CONFIG_PROJECT_VERSION" ++ ".bin"
    (true,
      [Ev.mkdirs p.dist_root,
       Ev.rmrf dist_path,
       Ev.copytree p.app_bin_path dist_path,
       Ev.logNote ("====[ BUILD SUCCESS ]====\n" ++
         " Target    : " ++ bin_name ++ "\n" ++
         " Output    : " ++ dist_path ++ "\n" ++
         " Platform  : " ++ env.usingData "CONFIG_PLATFORM_CHOICE" ++ "\n" ++
         " Chip      : " ++ env.usingData "CONFIG_CHIP_CHOICE" ++ "\n" ++
         " Board     : " ++ env.usingData "CONFIG_BOARD_CHOICE" ++ "\n" ++
         " Framework : " ++ env.usingData "CONFIG_FRAMEWORK_CHOICE" ++ "\n" ++
         "====")])

/-- The eight pipeline stages of `build_project`, in source order. -/
inductive Stage : Type where
  | envCheckS      -- env_check()
  | configLoadS    -- init_using_config + parse_config_file + platform key check
  | downloadS      -- download_platform
  | prepareS       -- prepare_platform
  | buildSetupS    -- build_setup
  | cmakeConfS     -- cmake_configure
  | ninjaExecS     -- ninja_build
  | artifactS      -- check_bin_file
deriving DecidableEq, Repr

/-- The fixed stage order of the orchestrator. -/
def buildOrder : List Stage :=
  [Stage.envCheckS, Stage.configLoadS, Stage.downloadS, Stage.prepareS,
   Stage.buildSetupS, Stage.cmakeConfS, Stage.ninjaExecS, Stage.artifactS]

/-- `build_project(verbose)`: the orchestrator, returning its boolean result,
the list of stages it entered (in order), and the full event trace. -/
def build_project (env : Env) (p : Params) (verbose : Bool) :
    Bool × List Stage × List Ev :=
  let t1 := [Ev.checkProjDir] ++ (env_check env).2
  let r1 := (env_check env).1
  if ¬ r1 then
    (false, [Stage.envCheckS], t1 ++ [Ev.logError "Env check error."])
  else
    let t2 := t1 ++ [Ev.initUsingConfig]
    let platform_name := env.usingData "CONFIG_PLATFORM_CHOICE"
    if platform_name = "" then
      (false, [Stage.envCheckS, Stage.configLoadS],
        t2 ++ [Ev.logError "Not fount platform name."])
    else
      let t3 := t2 ++ (download_platform env p platform_name).2
      if ¬ (download_platform env p platform_name).1 then
        (false, [Stage.envCheckS, Stage.configLoadS, Stage.downloadS],
          t3 ++ [Ev.logError "Download platform error."])
      else
        let t3b := t3 ++
          [Ev.logInfo ("Platform [" ++ platform_name ++ "] downloaded successfully.")]
        let chip_name := env.usingData "CONFIG_CHIP_CHOICE"
        let t4 := t3b ++ (prepare_platform env p platform_name chip_name).2
        if ¬ (prepare_platform env p platform_name chip_name).1 then
          (false, [Stage.envCheckS, Stage.configLoadS, Stage.downloadS,
                   Stage.prepareS],
            t4 ++ [Ev.logError "Prepare platform error."])
        else
          let t4b := t4 ++
            [Ev.logInfo ("Platform [" ++ platform_name ++ "] prepared successfully.")]
          let project_name := env.usingData "CONFIG_PROJECT_NAME"
          let framework := env.usingData "CONFIG_FRAMEWORK_CHOICE"
          let t5 := t4b ++
            (build_setup env p platform_name project_name framework chip_name).2
          if ¬ (build_setup env p platform_name project_name framework chip_name).1 then
            (false, [Stage.envCheckS, Stage.configLoadS, Stage.downloadS,
                     Stage.prepareS, Stage.buildSetupS],
              t5 ++ [Ev.logError "Build setup error."])
          else
            let t5b := t5 ++
              [Ev.logInfo ("Build setup for [" ++ project_name ++ "] success.")]
            let t6 := t5b ++ (cmake_configure env p verbose).2
            if ¬ (cmake_configure env p verbose).1 then
              (false, [Stage.envCheckS, Stage.configLoadS, Stage.downloadS,
                       Stage.prepareS, Stage.buildSetupS, Stage.cmakeConfS],
                t6 ++ [Ev.logError "Cmake configure error."])
            else
              let t6b := t6 ++ [Ev.logInfo "Cmake configure success."]
              let t7 := t6b ++ (ninja_build env p.app_build_path verbose).2
              if ¬ (ninja_build env p.app_build_path verbose).1 then
                (false, [Stage.envCheckS, Stage.configLoadS, Stage.downloadS,
                         Stage.prepareS, Stage.buildSetupS, Stage.cmakeConfS,
                         Stage.ninjaExecS],
                  t7 ++ [Ev.logError "Build error."])
              else
                let t8 := t7 ++ (check_bin_file env p).2
                if ¬ (check_bin_file env p).1 then
                  (false, buildOrder, t8)
                else
                  (true, buildOrder, t8)

/-- The success of each individual stage, as a function of the oracles:
`build_project` succeeds exactly when every stage in `buildOrder` succeeds. -/
def stageOk (env : Env) (p : Params) (verbose : Bool) : Stage → Bool
  | Stage.envCheckS => (env_check env).1
  | Stage.configLoadS => env.usingData "CONFIG_PLATFORM_CHOICE" ≠ ""
  | Stage.downloadS =>
      (download_platform env p (env.usingData "CONFIG_PLATFORM_CHOICE")).1
  | Stage.prepareS =>
      (prepare_platform env p (env.usingData "CONFIG_PLATFORM_CHOICE")
        (env.usingData "CONFIG_CHIP_CHOICE")).1
  | Stage.buildSetupS =>
      (build_setup env p (env.usingData "CONFIG_PLATFORM_CHOICE")
        (env.usingData "CONFIG_PROJECT_NAME")
        (env.usingData "CONFIG_FRAMEWORK_CHOICE")
        (env.usingData "CONFIG_CHIP_CHOICE")).1
  | Stage.cmakeConfS => (cmake_configure env p verbose).1
  | Stage.ninjaExecS => (ninja_build env p.app_build_path verbose).1
  | Stage.artifactS => (check_bin_file env p).1

/-- The mirror-toggle arguments occurring in a trace, in order:
`false` is enable (`unset=False`), `true` is disable (`unset=True`). -/
def mirrorOps (evs : List Ev) : List Bool :=
  evs.filterMap (fun e => match e with | Ev.mirrorSet u => some u | _ => none)

/-- Mirror-override state transition: `set_repo_mirro(unset=u)` drives the
override to `!u`; the baseline (never overridden) state is `false`. -/
def applyMirror (s : Bool) (ops : List Bool) : Bool :=
  ops.foldl (fun _ u => !u) s

/-- Whether an event is one of the external build processes named by the
spec's `ConfigurationMissing` contract: clone, checkout, hook, cmake, ninja. -/
def isExternalProc : Ev → Bool
  | Ev.clone _ _ => true
  | Ev.checkout _ _ => true
  | Ev.subproc _ => true
  | _ => false

/-- Whether an event deletes a file or directory. -/
def isDelete : Ev → Bool
  | Ev.rmrf _ => true
  | _ => false

/-- State of the distribution area: full path of a package directory to its
contents, `none` when absent. -/
def DistState : Type := String → Option FsTree

/-- Effect of one event on the distribution area. `content` gives the
on-disk contents of a source directory at copy time. -/
def applyDistEv (content : String → FsTree) (st : DistState) : Ev → DistState
  | Ev.rmrf q => fun n => if n = q then none else st n
  | Ev.copytree src dst => fun n => if n = dst then some (content src) else st n
  | _ => st

/-- Effect of a trace on the distribution area. -/
def runDist (content : String → FsTree) (st : DistState) (evs : List Ev) :
    DistState :=
  evs.foldl (applyDistEv content) st

/-- Traces containing no deletion event. -/
def deleteFree (evs : List Ev) : Prop := ∀ e ∈ evs, isDelete e = false

/-- C5: when the build-graph file `build.ninja` does not exist in the build
directory, `ninja_build` returns the boolean failure result with an empty
trace: the build-graph execution tool is not invoked and no exception
escapes (the function is total and returns a value). -/
theorem claim_C5 (env : Env) (build_path : String) (verbose : Bool)
    (habs : env.isFile (pjoin build_path "build.ninja") = false) :
    ninja_build env build_path verbose = (false, []) := by
  unfold ninja_build
  simp [habs]

/-- Witness for C5 at a concrete environment. -/
theorem claim_C5_witness :
    (Env.mk (fun _ => false) (fun _ => false) (fun _ => "") (fun _ _ => false)
      (fun _ _ => false) "" "" (fun _ => 0) (fun _ => "") false false
      (fun _ _ => none)).isFile (pjoin "/b" "build.ninja") = false ∧
    ninja_build (Env.mk (fun _ => false) (fun _ => false) (fun _ => "")
      (fun _ _ => false) (fun _ _ => false) "" "" (fun _ => 0) (fun _ => "")
      false false (fun _ _ => none)) "/b" false = (false, []) :=
  ⟨rfl, claim_C5 _ "/b" false rfl⟩

/-- C6: when the expected artifact `{appName}_QIO_{appVersion}.bin` is absent
from the binary-output directory, `check_bin_file` fails, its only action is
an error log naming that exact expected path, and the distribution area is
left unchanged (no package directory created, removed or modified). -/
theorem claim_C6 (env : Env) (p : Params)
    (habs : env.pathExists (expected_bin_file env p) = false) :
    (check_bin_file env p).1 = false ∧
    (check_bin_file env p).2 =
      [Ev.logError ("Not found " ++ expected_bin_file env p)] ∧
    (∀ content st, runDist content st (check_bin_file env p).2 = st) := by
  have htr : check_bin_file env p =
      (false, [Ev.logError ("Not found " ++ expected_bin_file env p)]) := by
    unfold check_bin_file
    simp [habs]
  refine ⟨by rw [htr], by rw [htr], ?_⟩
  intro content st
  rw [htr]
  simp [runDist, applyDistEv]

/-- C3: with an existing working tree at a revision different from the
pinned one, the mere existence of the suppression-flag file makes
`check_platform_commit` return success without reading any input,
performing any checkout, or writing any flag. -/
theorem claim_C3 (env : Env) (p : Params) (repo_path commit : String)
    (hrp : env.pathExists repo_path = true)
    (hflag : env.pathExists p.dont_update_platform = true)
    (hc : commit ≠ "")
    (_hdrift : env.gitCommit repo_path ≠ commit) :
    (check_platform_commit env p repo_path commit).1 = true ∧
    Ev.readInput ∉ (check_platform_commit env p repo_path commit).2 ∧
    (∀ a b, Ev.checkout a b ∉ (check_platform_commit env p repo_path commit).2) ∧
    (∀ q, Ev.writeFlag q ∉ (check_platform_commit env p repo_path commit).2) := by
  have htr : check_platform_commit env p repo_path commit =
      (true, [Ev.getCommit repo_path]) := by
    unfold check_platform_commit
    simp [hrp, hflag, hc]
  refine ⟨by rw [htr], ?_, ?_, ?_⟩
  · rw [htr]; simp
  · intro a b; rw [htr]; simp
  · intro q; rw [htr]; simp

/-- Witness for C3 at a concrete environment with a drifted tree and an
existing suppression flag. -/
theorem claim_C3_witness :
    ((Env.mk (fun _ => true) (fun _ => false) (fun _ => "def456")
        (fun _ _ => false) (fun _ _ => false) "" "" (fun _ => 0) (fun _ => "")
        false false (fun _ _ => none)).pathExists "/pf/esp32" = true) ∧
    ("abc123" : String) ≠ "" ∧
    ((check_platform_commit
        (Env.mk (fun _ => true) (fun _ => false) (fun _ => "def456")
          (fun _ _ => false) (fun _ _ => false) "" "" (fun _ => 0) (fun _ => "")
          false false (fun _ _ => none))
        (Params.mk [] "/pf" "/flag" "/o" "/a" "/b" "/bin" "/d")
        "/pf/esp32" "abc123").1 = true) :=
  ⟨rfl, by decide,
   (claim_C3 _ (Params.mk [] "/pf" "/flag" "/o" "/a" "/b" "/bin" "/d")
     "/pf/esp32" "abc123" rfl rfl (by decide) (by decide)).1⟩

/-- Computation rule for `String.toUpper` in terms of the character list,
used to evaluate it on concrete inputs. -/
theorem toUpper_eval (s : String) : s.toUpper = ⟨s.data.map Char.toUpper⟩ := by
  rw [String.toUpper, String.map_eq]

/-- C10: when the drift prompt is shown and the upper-cased answer is none
of "Y", "N", "D", `check_platform_commit` performs no checkout, writes no
flag, and returns success — the unrecognized answer behaves like skip-now. -/
theorem claim_C10 (env : Env) (p : Params) (repo_path commit : String)
    (hrp : env.pathExists repo_path = true)
    (hflag : env.pathExists p.dont_update_platform = false)
    (hc : commit ≠ "")
    (hdrift : env.gitCommit repo_path ≠ commit)
    (hY : env.userInput.toUpper ≠ "Y")
    (hN : env.userInput.toUpper ≠ "N")
    (hD : env.userInput.toUpper ≠ "D") :
    (check_platform_commit env p repo_path commit).1 = true ∧
    (∀ a b, Ev.checkout a b ∉ (check_platform_commit env p repo_path commit).2) ∧
    (∀ q, Ev.writeFlag q ∉ (check_platform_commit env p repo_path commit).2) := by
  have htr : check_platform_commit env p repo_path commit =
      (true,
       [Ev.getCommit repo_path,
        Ev.logWarn ("The commit required by the platform is " ++ commit ++ ","),
        Ev.logWarn ("but currently " ++ env.gitCommit repo_path ++ " is being used."),
        Ev.logInfo "Update the platform to the required commit?",
        Ev.logNote "y(es) / n(o) / d(on\x27t prompt again)",
        Ev.readInput]) := by
    unfold check_platform_commit
    simp [hrp, hflag, hc, hdrift, hY, hN, hD]
  refine ⟨by rw [htr], ?_, ?_⟩
  · intro a b; rw [htr]; simp
  · intro q; rw [htr]; simp

/-- Witness for C10 at a concrete environment answering "q". -/
theorem claim_C10_witness :
    (("q" : String).toUpper ≠ "Y") ∧
    ((check_platform_commit
        (Env.mk (fun s => s = "/pf/esp32") (fun _ => false) (fun _ => "def456")
          (fun _ _ => false) (fun _ _ => false) "q" "" (fun _ => 0) (fun _ => "")
          false false (fun _ _ => none))
        (Params.mk [] "/pf" "/flag" "/o" "/a" "/b" "/bin" "/d")
        "/pf/esp32" "abc123").1 = true) :=
  ⟨by rw [toUpper_eval]; decide,
   (claim_C10 _ (Params.mk [] "/pf" "/flag" "/o" "/a" "/b" "/bin" "/d")
     "/pf/esp32" "abc123" (by decide) (by decide) (by decide) (by decide)
     (by rw [toUpper_eval]; decide) (by rw [toUpper_eval]; decide)
     (by rw [toUpper_eval]; decide)).1⟩

/-- C4: for an existing working tree whose current revision equals the
descriptor's pinned revision, provisioning via `download_platform` reports
success and issues no clone and no checkout. -/
theorem claim_C4 (env : Env) (p : Params) (platform : String) (d : PlatformInfo)
    (hd : get_platform_info p platform = some d)
    (hex : env.pathExists (pjoin p.platforms_root platform) = true)
    (hrev : env.gitCommit (pjoin p.platforms_root platform) = d.commit) :
    (download_platform env p platform).1 = true ∧
    (∀ a b, Ev.clone a b ∉ (download_platform env p platform).2) ∧
    (∀ a b, Ev.checkout a b ∉ (download_platform env p platform).2) := by
  have hcpc : check_platform_commit env p (pjoin p.platforms_root platform)
      d.commit = (true, if d.commit = "" then []
        else [Ev.getCommit (pjoin p.platforms_root platform)]) := by
    unfold check_platform_commit
    by_cases hc : d.commit = "" <;> simp [hex, hrev, hc]
  have htr : download_platform env p platform =
      (true, [Ev.logInfo ("Platform [" ++ platform ++ "] is exists.")] ++
        (if d.commit = "" then []
         else [Ev.getCommit (pjoin p.platforms_root platform)])) := by
    unfold download_platform
    simp [hex, hd, get_platform_info_evs, hcpc]
  refine ⟨by rw [htr], ?_, ?_⟩ <;> intro a b <;> rw [htr] <;>
    by_cases hc : d.commit = "" <;> simp [hc]

/-- Witness for C4: one-platform registry, tree already at the pinned
commit. -/
theorem claim_C4_witness :
    (get_platform_info
        (Params.mk [PlatformInfo.mk "esp32" "https://example/esp32.git" "abc123"]
          "/pf" "/flag" "/o" "/a" "/b" "/bin" "/d") "esp32" =
      some (PlatformInfo.mk "esp32" "https://example/esp32.git" "abc123")) ∧
    ((download_platform
        (Env.mk (fun _ => true) (fun _ => false) (fun _ => "abc123")
          (fun _ _ => false) (fun _ _ => false) "" "" (fun _ => 0) (fun _ => "")
          false false (fun _ _ => none))
        (Params.mk [PlatformInfo.mk "esp32" "https://example/esp32.git" "abc123"]
          "/pf" "/flag" "/o" "/a" "/b" "/bin" "/d") "esp32").1 = true) :=
  ⟨by decide,
   (claim_C4 _ _ "esp32" (PlatformInfo.mk "esp32" "https://example/esp32.git" "abc123")
     (by decide) rfl rfl).1⟩

/-- The trace of `check_platform_commit` contains no mirror-toggle call. -/
theorem mirrorOps_check_platform_commit (env : Env) (p : Params)
    (repo_path commit : String) :
    mirrorOps (check_platform_commit env p repo_path commit).2 = [] := by
  unfold check_platform_commit
  by_cases h1 : env.pathExists repo_path
  · by_cases h2 : commit = ""
    · simp [h1, h2, mirrorOps]
    · by_cases h3 : env.pathExists p.dont_update_platform
      · simp [h1, h2, h3, mirrorOps]
      · by_cases h4 : env.gitCommit repo_path = commit
        · simp [h1, h2, h3, h4, mirrorOps]
        · by_cases h5 : env.userInput.toUpper = "Y"
          · by_cases h6 : env.checkoutOk repo_path commit <;>
              simp [h1, h2, h3, h4, h5, h6, mirrorOps]
          · by_cases h7 : env.userInput.toUpper = "N"
            · simp [h1, h2, h3, h4, h5, h7, mirrorOps]
            · by_cases h8 : env.userInput.toUpper = "D" <;>
                simp [h1, h2, h3, h4, h5, h7, h8, mirrorOps]
  · simp [h1, mirrorOps]

/-- C2: the mirror override is always released before `download_platform`
returns: its trace contains either no mirror toggle at all or exactly the
pair enable-then-disable, on success and on every failure path; consequently
the mirror state, started from its baseline, is unchanged after the call. -/
theorem claim_C2 (env : Env) (p : Params) (platform : String) :
    (mirrorOps (download_platform env p platform).2 = [] ∨
     mirrorOps (download_platform env p platform).2 = [false, true]) ∧
    applyMirror false (mirrorOps (download_platform env p platform).2) = false := by
  have key : mirrorOps (download_platform env p platform).2 = [] ∨
      mirrorOps (download_platform env p platform).2 = [false, true] := by
    unfold download_platform
    by_cases hex : env.pathExists (pjoin p.platforms_root platform)
    · left
      simp [hex, mirrorOps, List.filterMap_append] at *
      constructor
      · unfold get_platform_info_evs
        split <;> simp [mirrorOps] at *
      · have := mirrorOps_check_platform_commit env p
          (pjoin p.platforms_root platform)
          (((get_platform_info p platform).map (·.commit)).getD "")
        simpa [mirrorOps] using this
    · by_cases hcn : env.countryCode = "China" <;>
        by_cases hcl : env.cloneOk (((get_platform_info p platform).map (·.repo)).getD "")
          (pjoin p.platforms_root platform) <;>
        by_cases hco : env.checkoutOk (pjoin p.platforms_root platform)
          (((get_platform_info p platform).map (·.commit)).getD "") <;>
        simp [hex, hcn, hcl, hco, mirrorOps, List.filterMap_append,
          get_platform_info_evs] <;>
        (try split) <;> simp [mirrorOps]
  refine ⟨key, ?_⟩
  rcases key with h | h <;> simp [h, applyMirror]

/-- C7: on success, `check_bin_file` replaces the package directory
completely: the trace is exactly ensure-root, remove-old-package, copy-tree,
banner (removal strictly before the copy); for every prior distribution
state the resulting state holds exactly the current binary-output contents
at `{dist_root}/{appName}_{appVersion}` and is untouched elsewhere; and
replaying the same run on its own result changes nothing (idempotence). -/
theorem claim_C7 (env : Env) (p : Params)
    (hbin : env.pathExists (expected_bin_file env p) = true) :
    (check_bin_file env p).1 = true ∧
    (∃ m, (check_bin_file env p).2 =
      [Ev.mkdirs p.dist_root,
       Ev.rmrf (dist_path_of env p),
       Ev.copytree p.app_bin_path (dist_path_of env p),
       Ev.logNote m]) ∧
    (∀ st : DistState,
      runDist env.dirContent st (check_bin_file env p).2 =
        fun n => if n = dist_path_of env p
          then some (env.dirContent p.app_bin_path) else st n) ∧
    (∀ st : DistState,
      runDist env.dirContent
        (runDist env.dirContent st (check_bin_file env p).2)
        (check_bin_file env p).2 =
      runDist env.dirContent st (check_bin_file env p).2) := by
  have hbin' : env.pathExists (pjoin p.app_bin_path
      (env.usingData "CONFIG_PROJECT_NAME" ++ "_QIO_" ++
       env.usingData "CONFIG_PROJECT_VERSION" ++ ".bin")) = true := by
    simpa [expected_bin_file] using hbin
  have hrun : ∀ st : DistState,
      runDist env.dirContent st (check_bin_file env p).2 =
        fun n => if n = dist_path_of env p
          then some (env.dirContent p.app_bin_path) else st n := by
    intro st
    funext n
    unfold check_bin_file
    simp [hbin', runDist, applyDistEv, dist_path_of, expected_bin_file]
    by_cases hn : n = pjoin p.dist_root
        (env.usingData "CONFIG_PROJECT_NAME" ++ "_" ++
         env.usingData "CONFIG_PROJECT_VERSION") <;> simp [hn]
  refine ⟨?_, ?_, hrun, ?_⟩
  · unfold check_bin_file
    simp [hbin', expected_bin_file]
  · refine ⟨?_, ?_⟩
    · exact ("====[ BUILD SUCCESS ]====\n" ++
        " Target    : " ++ (env.usingData "CONFIG_PROJECT_NAME" ++ "_QIO_" ++
          env.usingData "CONFIG_PROJECT_VERSION" ++ ".bin") ++ "\n" ++
        " Output    : " ++ dist_path_of env p ++ "\n" ++
        " Platform  : " ++ env.usingData "CONFIG_PLATFORM_CHOICE" ++ "\n" ++
        " Chip      : " ++ env.usingData "CONFIG_CHIP_CHOICE" ++ "\n" ++
        " Board     : " ++ env.usingData "CONFIG_BOARD_CHOICE" ++ "\n" ++
        " Framework : " ++ env.usingData "CONFIG_FRAMEWORK_CHOICE" ++ "\n" ++
        "====")
    · unfold check_bin_file
      simp [hbin', dist_path_of, expected_bin_file]
  · intro st
    rw [hrun, hrun]
    funext n
    by_cases hn : n = dist_path_of env p <;> simp [hn]

/-- Witness for C7 at a concrete configuration `myapp` version `1.0.0`. -/
theorem claim_C7_witness :
    ((Env.mk (fun _ => true) (fun _ => true) (fun _ => "")
        (fun _ _ => true) (fun _ _ => true) "" "" (fun _ => 0)
        (fun k => if k = "CONFIG_PROJECT_NAME" then "myapp"
          else if k = "CONFIG_PROJECT_VERSION" then "1.0.0" else "")
        true true (fun _ _ => none)).pathExists
      (expected_bin_file
        (Env.mk (fun _ => true) (fun _ => true) (fun _ => "")
          (fun _ _ => true) (fun _ _ => true) "" "" (fun _ => 0)
          (fun k => if k = "CONFIG_PROJECT_NAME" then "myapp"
            else if k = "CONFIG_PROJECT_VERSION" then "1.0.0" else "")
          true true (fun _ _ => none))
        (Params.mk [] "/pf" "/flag" "/o" "/a" "/b" "/bin" "/d")) = true) ∧
    (check_bin_file
      (Env.mk (fun _ => true) (fun _ => true) (fun _ => "")
        (fun _ _ => true) (fun _ _ => true) "" "" (fun _ => 0)
        (fun k => if k = "CONFIG_PROJECT_NAME" then "myapp"
          else if k = "CONFIG_PROJECT_VERSION" then "1.0.0" else "")
        true true (fun _ _ => none))
      (Params.mk [] "/pf" "/flag" "/o" "/a" "/b" "/bin" "/d")).1 = true :=
  ⟨rfl,
   (claim_C7 _ (Params.mk [] "/pf" "/flag" "/o" "/a" "/b" "/bin" "/d") rfl).1⟩

/-- Witness for C6 at the same concrete configuration with the artifact
absent: the expected path `myapp_QIO_1.0.0.bin` is named in the error. -/
theorem claim_C6_witness :
    ((Env.mk (fun _ => false) (fun _ => false) (fun _ => "")
        (fun _ _ => false) (fun _ _ => false) "" "" (fun _ => 0)
        (fun k => if k = "CONFIG_PROJECT_NAME" then "myapp"
          else if k = "CONFIG_PROJECT_VERSION" then "1.0.0" else "")
        false false (fun _ _ => none)).pathExists "/bin/myapp_QIO_1.0.0.bin"
      = false) ∧
    (check_bin_file
      (Env.mk (fun _ => false) (fun _ => false) (fun _ => "")
        (fun _ _ => false) (fun _ _ => false) "" "" (fun _ => 0)
        (fun k => if k = "CONFIG_PROJECT_NAME" then "myapp"
          else if k = "CONFIG_PROJECT_VERSION" then "1.0.0" else "")
        false false (fun _ _ => none))
      (Params.mk [] "/pf" "/flag" "/o" "/a" "/b" "/bin" "/d")).1 = false :=
  ⟨rfl,
   (claim_C6 _ (Params.mk [] "/pf" "/flag" "/o" "/a" "/b" "/bin" "/d") rfl).1⟩

/-- C8: when a drifted working tree exists and no suppression flag is
present, exactly one prompt is read and the three-choice menu is shown;
`check_platform_commit` fails exactly when the answer is update-now ("Y")
and the checkout fails; answer "N" (skip) performs no checkout and
succeeds; answer "D" (suppress) writes the suppression flag, performs no
checkout, and succeeds. -/
theorem claim_C8 (env : Env) (p : Params) (repo_path commit : String)
    (hrp : env.pathExists repo_path = true)
    (hflag : env.pathExists p.dont_update_platform = false)
    (hc : commit ≠ "")
    (hdrift : env.gitCommit repo_path ≠ commit) :
    ((check_platform_commit env p repo_path commit).2.count Ev.readInput = 1) ∧
    (Ev.logNote "y(es) / n(o) / d(on\x27t prompt again)" ∈
      (check_platform_commit env p repo_path commit).2) ∧
    ((check_platform_commit env p repo_path commit).1 = false ↔
      (env.userInput.toUpper = "Y" ∧ env.checkoutOk repo_path commit = false)) ∧
    (env.userInput.toUpper = "N" →
      (check_platform_commit env p repo_path commit).1 = true ∧
      ∀ a b, Ev.checkout a b ∉ (check_platform_commit env p repo_path commit).2) ∧
    (env.userInput.toUpper = "D" →
      (check_platform_commit env p repo_path commit).1 = true ∧
      Ev.writeFlag p.dont_update_platform ∈
        (check_platform_commit env p repo_path commit).2 ∧
      ∀ a b, Ev.checkout a b ∉ (check_platform_commit env p repo_path commit).2) := by
  unfold check_platform_commit
  by_cases h5 : env.userInput.toUpper = "Y"
  · by_cases h6 : env.checkoutOk repo_path commit <;>
      simp [hrp, hflag, hc, hdrift, h5, h6, List.count_cons]
  · by_cases h7 : env.userInput.toUpper = "N"
    · simp [hrp, hflag, hc, hdrift, h5, h7, List.count_cons]
    · by_cases h8 : env.userInput.toUpper = "D" <;>
        simp [hrp, hflag, hc, hdrift, h5, h7, h8, List.count_cons]

/-- Witness for C8: drifted tree, no flag, user answers "d". -/
theorem claim_C8_witness :
    (("d" : String).toUpper = "D") ∧
    ((check_platform_commit
        (Env.mk (fun s => s = "/pf/esp32") (fun _ => false) (fun _ => "def456")
          (fun _ _ => false) (fun _ _ => false) "d" "" (fun _ => 0) (fun _ => "")
          false false (fun _ _ => none))
        (Params.mk [] "/pf" "/flag" "/o" "/a" "/b" "/bin" "/d")
        "/pf/esp32" "abc123").1 = true) :=
  ⟨by rw [toUpper_eval]; decide,
   ((claim_C8 _ (Params.mk [] "/pf" "/flag" "/o" "/a" "/b" "/bin" "/d")
      "/pf/esp32" "abc123" (by decide) (by decide) (by decide)
      (by decide)).2.2.2.2 (by rw [toUpper_eval]; decide)).1⟩


/-- `deleteFree` is closed under concatenation. -/
theorem deleteFree_append {a b : List Ev} (ha : deleteFree a)
    (hb : deleteFree b) : deleteFree (a ++ b) := by
  intro e he
  rcases List.mem_append.mp he with h | h
  exacts [ha e h, hb e h]

/-- `env_check` deletes nothing. -/
theorem deleteFree_env_check (env : Env) : deleteFree (env_check env).2 := by
  unfold env_check
  split <;> simp [deleteFree, isDelete]

/-- `check_platform_commit` deletes nothing. -/
theorem deleteFree_check_platform_commit (env : Env) (p : Params)
    (repo_path commit : String) :
    deleteFree (check_platform_commit env p repo_path commit).2 := by
  unfold check_platform_commit
  by_cases h1 : env.pathExists repo_path
  · by_cases h2 : commit = ""
    · simp [h1, h2, deleteFree, isDelete]
    · by_cases h3 : env.pathExists p.dont_update_platform
      · simp [h1, h2, h3, deleteFree, isDelete]
      · by_cases h4 : env.gitCommit repo_path = commit
        · simp [h1, h2, h3, h4, deleteFree, isDelete]
        · by_cases h5 : env.userInput.toUpper = "Y"
          · by_cases h6 : env.checkoutOk repo_path commit <;>
              simp [h1, h2, h3, h4, h5, h6, deleteFree, isDelete]
          · by_cases h7 : env.userInput.toUpper = "N"
            · simp [h1, h2, h3, h4, h5, h7, deleteFree, isDelete]
            · by_cases h8 : env.userInput.toUpper = "D" <;>
                simp [h1, h2, h3, h4, h5, h7, h8, deleteFree, isDelete]
  · simp [h1, deleteFree, isDelete]

/-- `download_platform` deletes nothing. -/
theorem deleteFree_download_platform (env : Env) (p : Params)
    (platform : String) :
    deleteFree (download_platform env p platform).2 := by
  have hcpc := deleteFree_check_platform_commit env p
    (pjoin p.platforms_root platform)
    (((get_platform_info p platform).map (·.commit)).getD "")
  unfold download_platform
  by_cases hex : env.pathExists (pjoin p.platforms_root platform)
  · simp only [hex, if_true]
    refine deleteFree_append ?_ hcpc
    unfold get_platform_info_evs
    split <;> simp [deleteFree, isDelete]
  · have hinfo : deleteFree (get_platform_info_evs p platform) := by
      unfold get_platform_info_evs
      split <;> simp [deleteFree, isDelete]
    by_cases hcn : env.countryCode = "China" <;>
      by_cases hcl : env.cloneOk
        (((get_platform_info p platform).map (·.repo)).getD "")
        (pjoin p.platforms_root platform) <;>
      by_cases hco : env.checkoutOk (pjoin p.platforms_root platform)
        (((get_platform_info p platform).map (·.commit)).getD "") <;>
      simp_all [deleteFree, isDelete, get_platform_info_evs] <;>
      (try split) <;> simp [deleteFree, isDelete]

/-- `prepare_platform` deletes nothing. -/
theorem deleteFree_prepare_platform (env : Env) (p : Params)
    (platform chip : String) :
    deleteFree (prepare_platform env p platform chip).2 := by
  unfold prepare_platform
  dsimp only
  repeat' split
  all_goals simp [deleteFree, isDelete]

/-- `build_setup` deletes nothing. -/
theorem deleteFree_build_setup (env : Env) (p : Params)
    (platform project_name framework chip : String) :
    deleteFree (build_setup env p platform project_name framework chip).2 := by
  unfold build_setup
  dsimp only
  repeat' split
  all_goals simp [deleteFree, isDelete]

/-- `cmake_configure` deletes nothing. -/
theorem deleteFree_cmake_configure (env : Env) (p : Params) (verbose : Bool) :
    deleteFree (cmake_configure env p verbose).2 := by
  unfold cmake_configure
  dsimp only
  split <;> simp [deleteFree, isDelete]

/-- `ninja_build` deletes nothing. -/
theorem deleteFree_ninja_build (env : Env) (build_path : String)
    (verbose : Bool) : deleteFree (ninja_build env build_path verbose).2 := by
  unfold ninja_build
  dsimp only
  repeat' split
  all_goals simp [deleteFree, isDelete]

/-- A failing `check_bin_file` deletes nothing: failure happens strictly
before the remove-and-copy sequence. -/
theorem deleteFree_check_bin_file_fail (env : Env) (p : Params)
    (hfail : (check_bin_file env p).1 = false) :
    deleteFree (check_bin_file env p).2 := by
  unfold check_bin_file at *
  by_cases hb : env.pathExists (pjoin p.app_bin_path
      (env.usingData "CONFIG_PROJECT_NAME" ++ "_QIO_" ++
       env.usingData "CONFIG_PROJECT_VERSION" ++ ".bin"))
  · simp [expected_bin_file, hb] at hfail
  · simp [expected_bin_file, hb, deleteFree, isDelete]

/-- C9: the orchestrator `build_project` enters the eight stages in the
fixed order and stops at the first failing stage (the stages entered are
exactly the prefix of `buildOrder` up to and including the first failure);
it returns success exactly when every stage succeeds; and when it returns
failure its whole trace contains no deletion, so nothing a completed stage
created is rolled back. -/
theorem claim_C9 (env : Env) (p : Params) (v : Bool) :
    (build_project env p v).2.1 =
      buildOrder.take
        (buildOrder.findIdx (fun s => ! stageOk env p v s) + 1) ∧
    (build_project env p v).1 = buildOrder.all (stageOk env p v) ∧
    ((build_project env p v).1 = true ∨
      deleteFree (build_project env p v).2.2) := by
  have hA := deleteFree_env_check env
  have hB := deleteFree_download_platform env p
    (env.usingData "CONFIG_PLATFORM_CHOICE")
  have hC := deleteFree_prepare_platform env p
    (env.usingData "CONFIG_PLATFORM_CHOICE") (env.usingData "CONFIG_CHIP_CHOICE")
  have hD := deleteFree_build_setup env p
    (env.usingData "CONFIG_PLATFORM_CHOICE") (env.usingData "CONFIG_PROJECT_NAME")
    (env.usingData "CONFIG_FRAMEWORK_CHOICE") (env.usingData "CONFIG_CHIP_CHOICE")
  have hE := deleteFree_cmake_configure env p v
  have hF := deleteFree_ninja_build env p.app_build_path v
  by_cases h1 : (env_check env).1 = true
  · by_cases h2 : env.usingData "CONFIG_PLATFORM_CHOICE" = ""
    · refine ⟨?_, ?_, Or.inr ?_⟩
      · unfold build_project
        simp [h1, h2, buildOrder, stageOk, List.findIdx_cons]
      · unfold build_project
        simp [h1, h2, buildOrder, stageOk]
      · unfold build_project
        simp_all [deleteFree, isDelete]
        rintro a (h | rfl | rfl)
        exacts [hA _ h, rfl, rfl]
    · by_cases h3 : (download_platform env p
          (env.usingData "CONFIG_PLATFORM_CHOICE")).1 = true
      · by_cases h4 : (prepare_platform env p
            (env.usingData "CONFIG_PLATFORM_CHOICE")
            (env.usingData "CONFIG_CHIP_CHOICE")).1 = true
        · by_cases h5 : (build_setup env p
              (env.usingData "CONFIG_PLATFORM_CHOICE")
              (env.usingData "CONFIG_PROJECT_NAME")
              (env.usingData "CONFIG_FRAMEWORK_CHOICE")
              (env.usingData "CONFIG_CHIP_CHOICE")).1 = true
          · by_cases h6 : (cmake_configure env p v).1 = true
            · by_cases h7 : (ninja_build env p.app_build_path v).1 = true
              · by_cases h8 : (check_bin_file env p).1 = true
                · refine ⟨?_, ?_, Or.inl ?_⟩
                  · unfold build_project
                    simp [h1, h2, h3, h4, h5, h6, h7, h8, buildOrder,
                      stageOk, List.findIdx_cons]
                  · unfold build_project
                    simp [h1, h2, h3, h4, h5, h6, h7, h8, buildOrder, stageOk]
                  · unfold build_project
                    simp [h1, h2, h3, h4, h5, h6, h7, h8]
                · replace h8 : (check_bin_file env p).1 = false := by
                    simpa using h8
                  have hG := deleteFree_check_bin_file_fail env p h8
                  refine ⟨?_, ?_, Or.inr ?_⟩
                  · unfold build_project
                    simp [h1, h2, h3, h4, h5, h6, h7, h8, buildOrder,
                      stageOk, List.findIdx_cons]
                  · unfold build_project
                    simp [h1, h2, h3, h4, h5, h6, h7, h8, buildOrder, stageOk]
                  · unfold build_project
                    simp_all [deleteFree, isDelete]
                    rintro a (h | rfl | h | rfl | h | rfl | h | rfl | h | rfl | h | h)
                    exacts [hA _ h, rfl, hB _ h, rfl, hC _ h, rfl, hD _ h, rfl, hE _ h, rfl, hF _ h, hG _ h]
              · replace h7 : (ninja_build env p.app_build_path v).1 = false := by
                  simpa using h7
                refine ⟨?_, ?_, Or.inr ?_⟩
                · unfold build_project
                  simp [h1, h2, h3, h4, h5, h6, h7, buildOrder, stageOk,
                    List.findIdx_cons]
                · unfold build_project
                  simp [h1, h2, h3, h4, h5, h6, h7, buildOrder, stageOk]
                · unfold build_project
                  simp_all [deleteFree, isDelete]
                  rintro a (h | rfl | h | rfl | h | rfl | h | rfl | h | rfl | h | rfl)
                  exacts [hA _ h, rfl, hB _ h, rfl, hC _ h, rfl, hD _ h, rfl, hE _ h, rfl, hF _ h, rfl]
            · replace h6 : (cmake_configure env p v).1 = false := by
                simpa using h6
              refine ⟨?_, ?_, Or.inr ?_⟩
              · unfold build_project
                simp [h1, h2, h3, h4, h5, h6, buildOrder, stageOk,
                  List.findIdx_cons]
              · unfold build_project
                simp [h1, h2, h3, h4, h5, h6, buildOrder, stageOk]
              · unfold build_project
                simp_all [deleteFree, isDelete]
                rintro a (h | rfl | h | rfl | h | rfl | h | rfl | h | rfl)
                exacts [hA _ h, rfl, hB _ h, rfl, hC _ h, rfl, hD _ h, rfl, hE _ h, rfl]
          · replace h5 : (build_setup env p
                (env.usingData "CONFIG_PLATFORM_CHOICE")
                (env.usingData "CONFIG_PROJECT_NAME")
                (env.usingData "CONFIG_FRAMEWORK_CHOICE")
                (env.usingData "CONFIG_CHIP_CHOICE")).1 = false := by
              simpa using h5
            refine ⟨?_, ?_, Or.inr ?_⟩
            · unfold build_project
              simp [h1, h2, h3, h4, h5, buildOrder, stageOk, List.findIdx_cons]
            · unfold build_project
              simp [h1, h2, h3, h4, h5, buildOrder, stageOk]
            · unfold build_project
              simp_all [deleteFree, isDelete]
              rintro a (h | rfl | h | rfl | h | rfl | h | rfl)
              exacts [hA _ h, rfl, hB _ h, rfl, hC _ h, rfl, hD _ h, rfl]
        · replace h4 : (prepare_platform env p
              (env.usingData "CONFIG_PLATFORM_CHOICE")
              (env.usingData "CONFIG_CHIP_CHOICE")).1 = false := by
            simpa using h4
          refine ⟨?_, ?_, Or.inr ?_⟩
          · unfold build_project
            simp [h1, h2, h3, h4, buildOrder, stageOk, List.findIdx_cons]
          · unfold build_project
            simp [h1, h2, h3, h4, buildOrder, stageOk]
          · unfold build_project
            simp_all [deleteFree, isDelete]
            rintro a (h | rfl | h | rfl | h | rfl)
            exacts [hA _ h, rfl, hB _ h, rfl, hC _ h, rfl]
      · replace h3 : (download_platform env p
            (env.usingData "CONFIG_PLATFORM_CHOICE")).1 = false := by
          simpa using h3
        refine ⟨?_, ?_, Or.inr ?_⟩
        · unfold build_project
          simp [h1, h2, h3, buildOrder, stageOk, List.findIdx_cons]
        · unfold build_project
          simp [h1, h2, h3, buildOrder, stageOk]
        · unfold build_project
          simp_all [deleteFree, isDelete]
          rintro a (h | rfl | h | rfl)
          exacts [hA _ h, rfl, hB _ h, rfl]
  · replace h1 : (env_check env).1 = false := by simpa using h1
    refine ⟨?_, ?_, Or.inr ?_⟩
    · unfold build_project
      simp [h1, buildOrder, stageOk, List.findIdx_cons]
    · unfold build_project
      simp [h1, buildOrder, stageOk]
    · unfold build_project
      simp_all [deleteFree, isDelete]
      rintro a (h | rfl)
      exacts [hA _ h, rfl]

/-- `env_check` runs no clone, checkout, hook, cmake or ninja process. -/
theorem externalFree_env_check (env : Env) :
    ∀ e ∈ (env_check env).2, isExternalProc e = false := by
  unfold env_check
  split <;> simp [isExternalProc]

/-- Counterexample to C1 as stated: first, a configuration whose chosen
platform has no registry entry, with the working tree already present on
disk — the missing registry entry is not fatal: the pinned revision
degrades to the empty string, revision checking is skipped, and the whole
build runs to success, so `build_project` does not return failure and the
external build processes do run. Second, a configuration missing the
required `CONFIG_PROJECT_VERSION` key also builds to success rather than
aborting before any external process. -/
theorem claim_C1_counterexample :
    get_platform_info (Params.mk [] "/pf" "/flag" "/o" "/a" "/b" "/bin" "/d")
      ((Env.mk (fun _ => true) (fun _ => true) (fun _ => "")
        (fun _ _ => true) (fun _ _ => true) "" "" (fun _ => 0)
        (fun k => if k = "CONFIG_PLATFORM_CHOICE" then "esp32"
          else if k = "CONFIG_PROJECT_NAME" then "myapp"
          else if k = "CONFIG_PROJECT_VERSION" then "1.0.0" else "")
        true true (fun _ _ => none)).usingData "CONFIG_PLATFORM_CHOICE")
      = none ∧
    (build_project
      (Env.mk (fun _ => true) (fun _ => true) (fun _ => "")
        (fun _ _ => true) (fun _ _ => true) "" "" (fun _ => 0)
        (fun k => if k = "CONFIG_PLATFORM_CHOICE" then "esp32"
          else if k = "CONFIG_PROJECT_NAME" then "myapp"
          else if k = "CONFIG_PROJECT_VERSION" then "1.0.0" else "")
        true true (fun _ _ => none))
      (Params.mk [] "/pf" "/flag" "/o" "/a" "/b" "/bin" "/d") false).1
      = true ∧
    ((Env.mk (fun _ => true) (fun _ => true) (fun _ => "abc123")
        (fun _ _ => true) (fun _ _ => true) "" "" (fun _ => 0)
        (fun k => if k = "CONFIG_PLATFORM_CHOICE" then "esp32"
          else if k = "CONFIG_PROJECT_NAME" then "myapp" else "")
        true true (fun _ _ => none)).usingData "CONFIG_PROJECT_VERSION"
      = "") ∧
    (build_project
      (Env.mk (fun _ => true) (fun _ => true) (fun _ => "abc123")
        (fun _ _ => true) (fun _ _ => true) "" "" (fun _ => 0)
        (fun k => if k = "CONFIG_PLATFORM_CHOICE" then "esp32"
          else if k = "CONFIG_PROJECT_NAME" then "myapp" else "")
        true true (fun _ _ => none))
      (Params.mk [PlatformInfo.mk "esp32" "https://example/esp32.git" "abc123"]
        "/pf" "/flag" "/o" "/a" "/b" "/bin" "/d") false).1
      = true := by
  refine ⟨rfl, rfl, rfl, rfl⟩

/-- C1 amended: a missing platform-choice key does abort before any clone,
checkout, hook, cmake or ninja process; a missing registry entry, however,
is fatal only when the working tree is absent, and even then the failure
happens during the clone attempt (with the degraded empty repository URL),
not before it. -/
theorem claim_C1 :
    (∀ (env : Env) (p : Params) (v : Bool),
      env.usingData "CONFIG_PLATFORM_CHOICE" = "" →
      (build_project env p v).1 = false ∧
      ∀ e ∈ (build_project env p v).2.2, isExternalProc e = false) ∧
    (∀ (env : Env) (p : Params) (v : Bool),
      get_platform_info p (env.usingData "CONFIG_PLATFORM_CHOICE") = none →
      env.usingData "CONFIG_PLATFORM_CHOICE" ≠ "" →
      env.pathExists
        (pjoin p.platforms_root (env.usingData "CONFIG_PLATFORM_CHOICE")) = false →
      env.cloneOk ""
        (pjoin p.platforms_root (env.usingData "CONFIG_PLATFORM_CHOICE")) = false →
      (build_project env p v).1 = false ∧
      ((env_check env).1 = true →
        Ev.clone ""
          (pjoin p.platforms_root (env.usingData "CONFIG_PLATFORM_CHOICE")) ∈
          (build_project env p v).2.2)) := by
  constructor
  · intro env p v hkey
    have hx := externalFree_env_check env
    by_cases h1 : (env_check env).1 = true
    · refine ⟨?_, ?_⟩
      · unfold build_project
        simp [h1, hkey]
      · unfold build_project
        simp only [h1, hkey]
        simp
        refine ⟨rfl, ?_⟩
        rintro a (h | rfl | rfl)
        exacts [hx _ h, rfl, rfl]
    · replace h1 : (env_check env).1 = false := by simpa using h1
      refine ⟨?_, ?_⟩
      · unfold build_project
        simp [h1]
      · unfold build_project
        simp only [h1]
        simp
        refine ⟨rfl, ?_⟩
        rintro a (h | rfl)
        exacts [hx _ h, rfl]
  · intro env p v hnone hkey hex hcl
    have hdl : (download_platform env p
        (env.usingData "CONFIG_PLATFORM_CHOICE")).1 = false ∧
        Ev.clone "" (pjoin p.platforms_root
          (env.usingData "CONFIG_PLATFORM_CHOICE")) ∈
        (download_platform env p (env.usingData "CONFIG_PLATFORM_CHOICE")).2 := by
      unfold download_platform
      simp [hnone, hex, hcl, get_platform_info_evs]
    by_cases h1 : (env_check env).1 = true
    · refine ⟨?_, fun _ => ?_⟩
      · unfold build_project
        simp [h1, hkey, hdl.1]
      · unfold build_project
        simp [h1, hkey, hdl.1, hdl.2]
    · replace h1 : (env_check env).1 = false := by simpa using h1
      refine ⟨?_, fun hcontra => ?_⟩
      · unfold build_project
        simp [h1]
      · rw [h1] at hcontra
        exact absurd hcontra (by simp)

/-- Witness for the amended C1: a configuration with no platform choice
aborts with no external process; a registry miss with an absent tree fails
at the clone attempt. -/
theorem claim_C1_witness :
    ((build_project
        (Env.mk (fun _ => false) (fun _ => false) (fun _ => "")
          (fun _ _ => false) (fun _ _ => false) "" "" (fun _ => 0)
          (fun _ => "") true true (fun _ _ => none))
        (Params.mk [] "/pf" "/flag" "/o" "/a" "/b" "/bin" "/d") false).1
        = false) ∧
    ((build_project
        (Env.mk (fun _ => false) (fun _ => false) (fun _ => "")
          (fun _ _ => false) (fun _ _ => false) "" "" (fun _ => 0)
          (fun k => if k = "CONFIG_PLATFORM_CHOICE" then "esp32" else "")
          true true (fun _ _ => none))
        (Params.mk [] "/pf" "/flag" "/o" "/a" "/b" "/bin" "/d") false).1
        = false) :=
  ⟨(claim_C1.1
      (Env.mk (fun _ => false) (fun _ => false) (fun _ => "")
        (fun _ _ => false) (fun _ _ => false) "" "" (fun _ => 0)
        (fun _ => "") true true (fun _ _ => none))
      (Params.mk [] "/pf" "/flag" "/o" "/a" "/b" "/bin" "/d") false rfl).1,
   (claim_C1.2
      (Env.mk (fun _ => false) (fun _ => false) (fun _ => "")
        (fun _ _ => false) (fun _ _ => false) "" "" (fun _ => 0)
        (fun k => if k = "CONFIG_PLATFORM_CHOICE" then "esp32" else "")
        true true (fun _ _ => none))
      (Params.mk [] "/pf" "/flag" "/o" "/a" "/b" "/bin" "/d") false
      rfl (by decide) rfl rfl).1⟩
